import Mathlib

/-!
Shallow embedding of the animation lifecycle controller of
`src/src/App.js` (component `SimpleFBXViewer`) in the MotionLab
repository, together with theorems settling the frozen claims.

Modelling conventions:
* React `useState` variables and `useRef` cells become fields of
  `ViewerState`.  A `useRef` cell (`sceneRef`, `modelRef`, `mixerRef`,
  `currentAnimationRef`, `animationFrameIdRef`) is always read at its
  current value; a `useState` variable read inside a closure is read at
  the value it had in the render that created the closure.  The two
  closure-captured state reads that matter (`speed` and `isPaused`
  inside `loadAnimationModel`'s success callback, App.js lines 213 and
  219) are therefore threaded explicitly as `capturedSpeed` /
  `capturedIsPaused`, snapshotted when `handleAnimationChange` runs
  (the `setTimeout` at lines 107-109 calls the `loadAnimationModel`
  binding of the same render).
* JS numbers are modelled as `Rat`; `Date.now()` is modelled by a
  monotone counter `clock` (only equality of tokens matters).
* The scene graph is modelled by the list of model objects attached to
  it (`Option` for "sceneRef.current is null"); the static scenery
  (grid, lights) plays no role in any claim.
* `THREE.FBXLoader` objects are mutable heap cells holding a
  `loadingId` field: `loaderFields` maps a loader index to the current
  value of that field, exactly mirroring `loader.loadingId = loadId`
  (line 140) and the completion check `loader.loadingId !== loadId`
  (line 146).
* An in-flight `loader.load` call is a `PendingLoad`; completion
  events may resolve pending loads in any order.
* The 50ms `setTimeout` around `loadAnimationModel` (lines 107-109,
  427-435) is inlined: it only delays the start of the load and
  preserves the order of starts, which is the only thing any claim
  depends on.
-/

/-- One entry of the `animations` state array (App.js lines 15-21). -/
structure AnimDesc where
  id : String
  name : String
  loaded : Bool
  active : Bool
deriving DecidableEq, Repr

/-- A 3-vector of rational coordinates (models `THREE.Vector3`). -/
structure Vec3 where
  x : Rat
  y : Rat
  z : Rat
deriving DecidableEq, Repr

/-- Axis-aligned bounding box as produced by
`new THREE.Box3().setFromObject(fbx)` (App.js line 157). `isEmptyBox`
models `box.isEmpty()`; `finite` models whether the box coordinates
are finite JS numbers (`isFinite(maxDim)`, line 166), which a `Rat`
cannot represent directly. -/
structure BBox where
  isEmptyBox : Bool
  boxMin : Vec3
  boxMax : Vec3
  finite : Bool
deriving DecidableEq, Repr

/-- `box.getCenter(...)` — THREE.Box3 returns the zero vector for an
empty box, otherwise the midpoint. -/
def getCenter (b : BBox) : Vec3 :=
  if b.isEmptyBox then ⟨0, 0, 0⟩
  else ⟨(b.boxMin.x + b.boxMax.x) / 2, (b.boxMin.y + b.boxMax.y) / 2,
        (b.boxMin.z + b.boxMax.z) / 2⟩

/-- `box.getSize(...)` — THREE.Box3 returns the zero vector for an
empty box, otherwise `max - min`. -/
def getSize (b : BBox) : Vec3 :=
  if b.isEmptyBox then ⟨0, 0, 0⟩
  else ⟨b.boxMax.x - b.boxMin.x, b.boxMax.y - b.boxMin.y,
        b.boxMax.z - b.boxMin.z⟩

/-- `const maxDim = Math.max(size.x, size.y, size.z)` (App.js line 164). -/
def maxDim (b : BBox) : Rat :=
  max (getSize b).x (max (getSize b).y (getSize b).z)

/-- The auto-scale-and-center block of the load success callback
(App.js lines 156-180): returns the uniform scale factor written by
`fbx.scale.setScalar` and the position written to `fbx.position`.
The degenerate branch (line 166) fires when `maxDim === 0` or
`!isFinite(maxDim)` and applies the fixed fallback scale `0.1`;
otherwise `scale = targetSize / maxDim` with `targetSize = 100`
(lines 171-173).  Lines 178-180 then set
`position = (-center.x*s, -center.y*s + size.y/2*s, -center.z*s)`
in both branches. -/
def autoScaleAndCenter (b : BBox) : Rat × Vec3 :=
  let center := getCenter b
  let size := getSize b
  let m := maxDim b
  let scale : Rat := if m = 0 ∨ b.finite = false then 1/10 else 100 / m
  (scale, ⟨-center.x * scale, -center.y * scale + size.y / 2 * scale,
           -center.z * scale⟩)

/-- A loaded FBX asset: the animation id it was fetched for (the URL
is `/models/{animationId}.fbx`, line 143), the number of animation
clips it contains (`fbx.animations.length`), and its bounding box. -/
structure Fbx where
  animId : String
  numAnimations : Nat
  box : BBox
deriving DecidableEq, Repr

/-- A model object attached to the scene: the asset together with the
scale and position written by the normalization block.  `objId` is
the object's identity (JS reference identity): `scene.remove(obj)`
removes by reference, so the embedding removes by `objId`. -/
structure Placed where
  objId : Nat
  fbx : Fbx
  scaleFactor : Rat
  posX : Rat
  posY : Rat
  posZ : Rat
deriving DecidableEq, Repr

/-- The current clip action (`currentAnimationRef.current`): the
fields of `THREE.AnimationAction` that the controller reads or
writes — `paused`, `timeScale`, and the clip time advanced by
`mixer.update`. -/
structure ClipAction where
  paused : Bool
  timeScale : Rat
  time : Rat
deriving DecidableEq, Repr

/-- An in-flight `loader.load` call: which loader object it went
through, the `loadId` captured by its callbacks (line 139), the
requested animation id, and the render-closure snapshots of `speed`
and `isPaused` read by the success callback (lines 213, 219). -/
structure PendingLoad where
  loaderIdx : Nat
  loadId : Nat
  animationId : String
  capturedSpeed : Rat
  capturedIsPaused : Bool
deriving DecidableEq, Repr

/-- The component state: `useState` variables, the persistent refs,
the heap of loader objects, the set of in-flight loads, the
`Date.now()` clock, and the ids of models whose geometry/material
have been `dispose()`d. -/
structure ViewerState where
  log : List String
  speed : Rat
  isPaused : Bool
  isLoading : Bool
  loadingProgress : Nat
  selectedAnimation : String
  animations : List AnimDesc
  scene : Option (List Placed)
  model : Option Placed
  mixer : Bool
  currentAction : Option ClipAction
  animationFrameId : Option Nat
  loaderFields : List (Nat × Nat)
  pending : List PendingLoad
  clock : Nat
  nextObjId : Nat
  disposed : List String
deriving DecidableEq, Repr

/-- `addLog` (App.js lines 39-42), without the timestamp prefix. -/
def addLog (s : ViewerState) (m : String) : ViewerState :=
  { s with log := s.log ++ [m] }

/-- The `setAnimations` updater of `handleAnimationChange` (lines
96-101) and of the initial-mount timeout (lines 429-434): every
descriptor's `active` becomes `id === animationId`. -/
def selectUpdate (animationId : String) (l : List AnimDesc) : List AnimDesc :=
  l.map fun anim => { anim with active := anim.id == animationId }

/-- The `setAnimations` updater of the load success callback (lines
232-238): sets `loaded` on the target, `active := id === animationId`
on every descriptor. -/
def successUpdate (animationId : String) (l : List AnimDesc) : List AnimDesc :=
  l.map fun anim =>
    { anim with loaded := if anim.id == animationId then true else anim.loaded,
                active := anim.id == animationId }

/-- The `setAnimations` updater of the load error callback (lines
271-276): clears `active` on the failed descriptor, keeps the rest. -/
def errorUpdate (animationId : String) (l : List AnimDesc) : List AnimDesc :=
  l.map fun anim =>
    { anim with active := if anim.id == animationId then false else anim.active }

/-- Number of descriptors with `active = true`. -/
def countActive (l : List AnimDesc) : Nat :=
  (l.filter (fun a => a.active)).length

/-- The descriptor ids are pairwise distinct. -/
def distinctIds (l : List AnimDesc) : Prop :=
  (l.map AnimDesc.id).Nodup

instance (l : List AnimDesc) : Decidable (distinctIds l) := by
  unfold distinctIds; infer_instance

/-- Reading a loader object's `loadingId` field (the loader heap). -/
def lookupLoaderField (fields : List (Nat × Nat)) (idx : Nat) : Option Nat :=
  (fields.find? (fun p => p.1 == idx)).map (fun p => p.2)

/-- `updateSpeed` (App.js lines 45-51): store the new speed; if both
`currentAnimationRef.current` and `mixerRef.current` are set, call
`setEffectiveTimeScale(newSpeed)` on the action (which assigns its
`timeScale`) and log. -/
def updateSpeed (s : ViewerState) (newSpeed : Rat) : ViewerState :=
  let s1 := { s with speed := newSpeed }
  match s1.currentAction with
  | some a =>
      if s1.mixer then
        addLog { s1 with currentAction := some { a with timeScale := newSpeed } }
          "Animation speed set"
      else s1
  | none => s1

/-- `togglePause` (App.js lines 54-72): early-return no-op when
`mixerRef.current` or `currentAnimationRef.current` is null; otherwise
flip `isPaused`, writing the new value to `action.paused` and to the
`isPaused` state.  Clip `time` is never touched. -/
def togglePause (s : ViewerState) : ViewerState :=
  match s.currentAction with
  | none => s
  | some a =>
      if s.mixer = false then s
      else
        let newPausedState := !s.isPaused
        let s1 := { s with currentAction := some { a with paused := newPausedState } }
        let s2 := addLog s1 (if newPausedState then "Animation paused"
                             else "Animation resumed")
        { s2 with isPaused := newPausedState }

/-- `loadAnimationModel` (App.js lines 112-143, up to issuing
`loader.load`): abort if the scene ref is null; remove the current
model from the scene and null `modelRef` (lines 121-125); stop and
null the mixer and the current action (lines 127-132); create a fresh
`FBXLoader`, write `loadingId = Date.now()` to it (lines 135-140) and
issue the load, whose callbacks capture this loader, this `loadId`,
and the render-closure snapshots of `speed`/`isPaused`. -/
def loadAnimationModel (s0 : ViewerState) (animationId : String)
    (capturedSpeed : Rat) (capturedIsPaused : Bool) : ViewerState :=
  match s0.scene with
  | none => addLog s0 s!"ERROR: Cannot load {animationId} - scene not initialized"
  | some sceneObjs =>
      let s1 := addLog s0 s!"Loading animation model: {animationId}"
      let s2 :=
        match s1.model with
        | some m =>
            { s1 with
                scene := some (sceneObjs.filter (fun p => p.objId ≠ m.objId)),
                model := none }
        | none => s1
      let s3 := if s2.mixer then { s2 with mixer := false, currentAction := none }
                else s2
      let loadId := s3.clock
      let idx := s3.loaderFields.length
      { s3 with
          loaderFields := s3.loaderFields ++ [(idx, loadId)],
          pending := s3.pending ++
            [⟨idx, loadId, animationId, capturedSpeed, capturedIsPaused⟩],
          clock := s3.clock + 1 }

/-- The `loader.load` success callback (App.js lines 144-252).
Order is exactly the source's: the staleness check
`loader.loadingId !== loadId` (line 146) compares the loader object's
current field with the captured `loadId`; then `setIsLoading(false)`
(line 154); then the normalization block; then `modelRef.current =
fbx` (line 197) happens before the scene-existence check (line 200);
inside the check the model is added to the scene, and if the asset
has animation clips a mixer and action are built — `action.timeScale
= speed` and the `if (isPaused) action.paused = true` read the
closure-captured snapshots (lines 213, 219), `reset()` zeroes the
clip time — and the `setAnimations` success updater runs (lines
232-238).  With no clips, or with the scene gone, only a log and
`setIsLoading(false)`. -/
def onLoadSuccess (s0 : ViewerState) (p : PendingLoad) (fbx : Fbx) : ViewerState :=
  if lookupLoaderField s0.loaderFields p.loaderIdx ≠ some p.loadId then
    addLog s0 s!"Ignoring completed load for {p.animationId} - newer request in progress"
  else
    let s1 := addLog s0 s!"FBX model loaded successfully: {p.animationId}"
    let s2 := { s1 with isLoading := false }
    let sc := autoScaleAndCenter fbx.box
    let placed : Placed := ⟨s2.nextObjId, fbx, sc.1, sc.2.x, sc.2.y, sc.2.z⟩
    let s3 := { s2 with model := some placed, nextObjId := s2.nextObjId + 1 }
    match s3.scene with
    | some objs =>
        let s4 := { s3 with scene := some (objs ++ [placed]) }
        if fbx.numAnimations ≠ 0 then
          let action : ClipAction :=
            ⟨p.capturedIsPaused, p.capturedSpeed, 0⟩
          let s5 := { s4 with mixer := true, currentAction := some action }
          let s6 := addLog s5 "Animation started"
          { s6 with animations := successUpdate p.animationId s6.animations }
        else
          addLog { s4 with isLoading := false } "No animations found in model"
    | none =>
        addLog { s3 with isLoading := false }
          "WARNING: Scene no longer exists, cannot complete model setup"

/-- The `loader.load` error callback (App.js lines 265-277): log,
`setIsLoading(false)`, clear `active` on the failed descriptor.
Note the source has no staleness check on this path. -/
def onLoadError (s0 : ViewerState) (p : PendingLoad) : ViewerState :=
  let s1 := addLog s0 s!"Error loading model {p.animationId}"
  { s1 with isLoading := false,
            animations := errorUpdate p.animationId s1.animations }

/-- `handleAnimationChange` (App.js lines 75-110): look the id up in
the `animations` array; unknown id → log and return; already-active
id → log and return; otherwise log, `setIsLoading(true)`,
`setLoadingProgress(0)`, `setSelectedAnimation`, run the select
updater, `setIsPaused(false)`, and start the load.  The load's
callbacks capture `speed`/`isPaused` as they were when this handler's
render closed over them — i.e. before the `setIsPaused(false)`. -/
def handleAnimationChange (s : ViewerState) (animationId : String) : ViewerState :=
  match s.animations.find? (fun anim => anim.id == animationId) with
  | none => addLog s s!"Animation {animationId} not found"
  | some selectedAnim =>
      if selectedAnim.active then
        addLog s s!"Animation {animationId} already active"
      else
        let capturedSpeed := s.speed
        let capturedIsPaused := s.isPaused
        let s1 := addLog s s!"Switching to animation: {animationId}"
        let s2 := { s1 with isLoading := true, loadingProgress := 0,
                            selectedAnimation := animationId,
                            animations := selectUpdate animationId s1.animations,
                            isPaused := false }
        loadAnimationModel s2 animationId capturedSpeed capturedIsPaused

/-- One pass of the render loop body (App.js lines 409-424) as far as
the controller state is concerned: the loop only runs while a frame
callback is scheduled (`requestAnimationFrame` re-arms it each pass;
`cancelAnimationFrame` stops it for good).  If a mixer is attached,
`mixer.update(delta)` advances the unpaused action's clip time by
`delta * timeScale`. -/
def frameTick (s : ViewerState) (delta : Rat) : ViewerState :=
  match s.animationFrameId with
  | none => s
  | some _ =>
      if s.mixer then
        match s.currentAction with
        | some a =>
            if a.paused then s
            else
              let a1 : ClipAction := { a with time := a.time + delta * a.timeScale }
              { s with currentAction := some a1 }
        | none => s
      else s

/-- The unmount cleanup (App.js lines 452-508): cancel the scheduled
frame callback, stop the mixer (guarded by try/catch, so never
throws), detach the renderer, traverse the scene disposing every
geometry/material, and null all refs. -/
def cleanup (s : ViewerState) : ViewerState :=
  let s1 := addLog s "Component unmounting, cleaning up"
  let disposedNow : List String :=
    match s1.scene with
    | some objs => objs.map (fun p => p.fbx.animId)
    | none => []
  { s1 with disposed := s1.disposed ++ disposedNow,
            scene := none, model := none, mixer := false,
            currentAction := none, animationFrameId := none }

/-- External events driving the controller: a dropdown selection, a
load completion (success with the fetched asset's clip count and
bounding box, or failure) for the in-flight load at index `k`, the
pause toggle, a speed change, a render frame, and unmount. -/
inductive Event where
  | select (id : String)
  | completeOk (k : Nat) (numAnims : Nat) (box : BBox)
  | completeErr (k : Nat)
  | toggle
  | setSpd (v : Rat)
  | frame (delta : Rat)
  | teardown
deriving DecidableEq, Repr

/-- The event-step function: UI events run the handlers above; a
completion event consumes the in-flight load at index `k` (any order
is allowed, modelling asynchronous arrival) and runs the matching
callback; out-of-range completion indices are no events at all. -/
def step (s : ViewerState) : Event → ViewerState
  | .select id => handleAnimationChange s id
  | .completeOk k n b =>
      match s.pending.get? k with
      | some p =>
          onLoadSuccess { s with pending := s.pending.eraseIdx k } p
            ⟨p.animationId, n, b⟩
      | none => s
  | .completeErr k =>
      match s.pending.get? k with
      | some p => onLoadError { s with pending := s.pending.eraseIdx k } p
      | none => s
  | .toggle => togglePause s
  | .setSpd v => updateSpeed s v
  | .frame d => frameTick s d
  | .teardown => cleanup s

/-- Run a list of events in order. -/
def run (s : ViewerState) : List Event → ViewerState
  | [] => s
  | e :: es => run (step s e) es

/-- The initial `animations` array (App.js lines 15-21). -/
def initialAnimations : List AnimDesc :=
  [⟨"startwalk", "Walking", false, false⟩,
   ⟨"seated", "Sitting", false, false⟩,
   ⟨"shakehand", "Shake Hand", false, false⟩,
   ⟨"drinking", "Drinking", false, false⟩,
   ⟨"jumping", "Jumping", false, false⟩]

/-- Component state right after the mount effect has built the scene
and started the render loop (App.js lines 305-438), before the
initial-load timeout fires: `isLoading` starts `true` (line 12),
`speed = 1`, `isPaused = false`, `selectedAnimation = 'startwalk'`
(lines 10-14), scene present and empty of models, render loop
scheduled. -/
def initState : ViewerState :=
  { log := [], speed := 1, isPaused := false, isLoading := true,
    loadingProgress := 0, selectedAnimation := "startwalk",
    animations := initialAnimations, scene := some [], model := none,
    mixer := false, currentAction := none, animationFrameId := some 0,
    loaderFields := [], pending := [], clock := 0, nextObjId := 0,
    disposed := [] }

/-- The initial-load timeout (App.js lines 427-435): call
`loadAnimationModel('startwalk')` with the first render's snapshots
(`speed = 1`, `isPaused = false`), then run the select updater for
`'startwalk'`. -/
def mountTimeout (s : ViewerState) : ViewerState :=
  let s1 := loadAnimationModel s "startwalk" s.speed s.isPaused
  { s1 with animations := selectUpdate "startwalk" s1.animations }

/-- Ids of the descriptors currently marked active. -/
def activeIds (l : List AnimDesc) : List String :=
  (l.filter (fun a => a.active)).map AnimDesc.id

/-- A well-formed 2×2×2 bounding box sitting on the ground plane. -/
def okBox : BBox := ⟨false, ⟨-1, 0, -1⟩, ⟨1, 2, 1⟩, true⟩

/-- A degenerate (zero-size) bounding box. -/
def degBox : BBox := ⟨false, ⟨3, 5, 7⟩, ⟨3, 5, 7⟩, true⟩

/-- A bounding box with non-finite coordinates (the `finite` flag
models `isFinite(maxDim) === false`). -/
def nonfinBox : BBox := ⟨false, ⟨0, 0, 0⟩, ⟨1, 1, 1⟩, false⟩

/-- Race trace: the initial `startwalk` load completes; the user
selects `seated`, then selects `drinking` while the `seated` load is
still in flight; the `drinking` load completes first (pending index 1),
and finally the superseded `seated` load completes (pending index 0). -/
def raceTrace : List Event :=
  [.completeOk 0 1 okBox, .select "seated", .select "drinking",
   .completeOk 1 1 okBox, .completeOk 0 1 okBox]

/-- Failure trace: the initial `startwalk` load completes and is
displayed; the user selects `seated`; the `seated` fetch fails. -/
def failTrace : List Event :=
  [.completeOk 0 1 okBox, .select "seated", .completeErr 0]

/-- Paused-selection trace: the initial `startwalk` load completes;
the user pauses; the user selects `seated`; the `seated` load
completes. -/
def pausedSelectTrace : List Event :=
  [.completeOk 0 1 okBox, .toggle, .select "seated", .completeOk 0 1 okBox]

/-- Replacement trace: the initial `startwalk` load completes and is
displayed; the user selects `seated`; the `seated` load completes. -/
def replaceTrace : List Event :=
  [.completeOk 0 1 okBox, .select "seated", .completeOk 0 1 okBox]

lemma countActive_nil : countActive [] = 0 := rfl

lemma countActive_cons (a : AnimDesc) (l : List AnimDesc) :
    countActive (a :: l) = (if a.active then 1 else 0) + countActive l := by
  simp [countActive, List.filter_cons]
  split <;> simp [Nat.add_comm]

lemma countActive_setActive_eq_zero (t : String) (g : AnimDesc → AnimDesc)
    (hg : ∀ a, (g a).active = (a.id == t)) (l : List AnimDesc)
    (h : ∀ b ∈ l, b.id ≠ t) : countActive (l.map g) = 0 := by
  induction l with
  | nil => rfl
  | cons a l ih =>
      rw [List.map_cons, countActive_cons, hg]
      have ha : a.id ≠ t := h a (List.mem_cons_self a l)
      simp only [beq_iff_eq, ha, if_false, Nat.zero_add]
      exact ih (fun b hb => h b (List.mem_cons_of_mem a hb))

lemma countActive_setActive_le_one (t : String) (g : AnimDesc → AnimDesc)
    (hg : ∀ a, (g a).active = (a.id == t))
    (l : List AnimDesc) (h : distinctIds l) : countActive (l.map g) ≤ 1 := by
  induction l with
  | nil => simp [countActive_nil]
  | cons a l ih =>
      have hcons : a.id ∉ l.map AnimDesc.id ∧ (l.map AnimDesc.id).Nodup := by
        have hc : (a.id :: l.map AnimDesc.id).Nodup := by
          simpa [distinctIds] using h
        exact List.nodup_cons.mp hc
      rw [List.map_cons, countActive_cons, hg]
      have hnd : distinctIds l := hcons.2
      by_cases hat : a.id = t
      · have hz : countActive (l.map g) = 0 := by
          refine countActive_setActive_eq_zero t g hg l (fun b hb hbt => ?_)
          have hmem : b.id ∈ l.map AnimDesc.id :=
            List.mem_map_of_mem AnimDesc.id hb
          rw [hbt, ← hat] at hmem
          exact hcons.1 hmem
        simp [hat, hz]
      · simp only [beq_iff_eq, hat, if_false, Nat.zero_add]
        exact ih hnd

lemma countActive_errorUpdate_le (t : String) (l : List AnimDesc) :
    countActive (errorUpdate t l) ≤ countActive l := by
  induction l with
  | nil => simp [errorUpdate, countActive_nil]
  | cons a l ih =>
      have hstep : countActive (errorUpdate t (a :: l)) =
          (if (if a.id == t then false else a.active) then 1 else 0) +
            countActive (errorUpdate t l) := by
        simp [errorUpdate, countActive_cons]
      rw [hstep, countActive_cons]
      have hle : (if (if a.id == t then false else a.active) then 1 else 0) ≤
          (if a.active then 1 else 0) := by
        by_cases hb : a.id == t <;> by_cases hc : a.active <;> simp [hb, hc]
      omega

lemma countActive_selectUpdate_le_one (t : String) (l : List AnimDesc)
    (h : distinctIds l) : countActive (selectUpdate t l) ≤ 1 := by
  rw [selectUpdate]
  exact countActive_setActive_le_one t
    (fun anim => { anim with active := anim.id == t }) (fun _ => rfl) l h

lemma countActive_successUpdate_le_one (t : String) (l : List AnimDesc)
    (h : distinctIds l) : countActive (successUpdate t l) ≤ 1 := by
  rw [successUpdate]
  exact countActive_setActive_le_one t
    (fun anim =>
      { anim with loaded := if anim.id == t then true else anim.loaded,
                  active := anim.id == t }) (fun _ => rfl) l h

lemma countActive_errorUpdate_selectUpdate (t : String) (l : List AnimDesc) :
    countActive (errorUpdate t (selectUpdate t l)) = 0 := by
  induction l with
  | nil => rfl
  | cons a l ih =>
      rw [selectUpdate, List.map_cons, ← selectUpdate, errorUpdate,
        List.map_cons, ← errorUpdate, countActive_cons]
      by_cases hb : a.id == t <;> simp [hb, ih]

lemma loadAnimationModel_animations (s : ViewerState) (a : String) (v : Rat)
    (pb : Bool) : (loadAnimationModel s a v pb).animations = s.animations := by
  unfold loadAnimationModel
  split
  · rfl
  · dsimp only [addLog]
    split <;> split <;> rfl

lemma onLoadSuccess_animations (s : ViewerState) (p : PendingLoad) (f : Fbx) :
    (onLoadSuccess s p f).animations = s.animations ∨
    (onLoadSuccess s p f).animations = successUpdate p.animationId s.animations := by
  unfold onLoadSuccess
  split
  · left; rfl
  · dsimp only [addLog]
    split
    · split
      · right; rfl
      · left; rfl
    · left; rfl

lemma onLoadError_animations (s : ViewerState) (p : PendingLoad) :
    (onLoadError s p).animations = errorUpdate p.animationId s.animations := rfl

lemma handleAnimationChange_animations (s : ViewerState) (id : String) :
    (handleAnimationChange s id).animations = s.animations ∨
    (handleAnimationChange s id).animations = selectUpdate id s.animations := by
  unfold handleAnimationChange
  split
  · left; rfl
  · split
    · left; rfl
    · right
      rw [loadAnimationModel_animations]
      rfl

lemma togglePause_animations (s : ViewerState) :
    (togglePause s).animations = s.animations := by
  unfold togglePause
  split
  · rfl
  · split <;> rfl

lemma updateSpeed_animations (s : ViewerState) (v : Rat) :
    (updateSpeed s v).animations = s.animations := by
  unfold updateSpeed
  dsimp only [addLog]
  split
  · split <;> rfl
  · rfl

lemma frameTick_animations (s : ViewerState) (d : Rat) :
    (frameTick s d).animations = s.animations := by
  unfold frameTick
  split
  · rfl
  · split
    · split
      · split <;> rfl
      · rfl
    · rfl

lemma cleanup_animations (s : ViewerState) :
    (cleanup s).animations = s.animations := rfl

/-- **C3.** After every state update performed by any operation
(selection, load success, load failure, initial mount — the initial
mount applies the same `selectUpdate` as selection), at most one
descriptor in the animations list has `active = true`; the selection
and success updaters set exactly the targeted descriptor active
(clearing all others), and the failure updater clears the failed
one. -/
theorem atMostOneActiveDescriptor (s : ViewerState) (e : Event)
    (h1 : distinctIds s.animations) (h2 : countActive s.animations ≤ 1) :
    countActive (step s e).animations ≤ 1 ∧
    (∀ t, ∀ a ∈ selectUpdate t s.animations, a.active = (a.id == t)) ∧
    (∀ t, ∀ a ∈ successUpdate t s.animations, a.active = (a.id == t)) ∧
    (∀ t, ∀ a ∈ errorUpdate t s.animations, a.id = t → a.active = false) := by
  refine ⟨?_, ?_, ?_, ?_⟩
  · cases e with
    | select id =>
        have hs : (step s (.select id)).animations =
            (handleAnimationChange s id).animations := rfl
        rw [hs]
        rcases handleAnimationChange_animations s id with h | h
        · rw [h]; exact h2
        · rw [h]; exact countActive_selectUpdate_le_one id s.animations h1
    | completeOk k n b =>
        have hs : step s (.completeOk k n b) =
            (match s.pending.get? k with
             | some p =>
                 onLoadSuccess { s with pending := s.pending.eraseIdx k } p
                   ⟨p.animationId, n, b⟩
             | none => s) := rfl
        rw [hs]
        cases hp : s.pending.get? k with
        | none => exact h2
        | some p =>
            rcases onLoadSuccess_animations
                { s with pending := s.pending.eraseIdx k } p
                ⟨p.animationId, n, b⟩ with h | h
            · rw [h]; exact h2
            · rw [h]
              exact countActive_successUpdate_le_one p.animationId
                s.animations h1
    | completeErr k =>
        have hs : step s (.completeErr k) =
            (match s.pending.get? k with
             | some p => onLoadError { s with pending := s.pending.eraseIdx k } p
             | none => s) := rfl
        rw [hs]
        cases hp : s.pending.get? k with
        | none => exact h2
        | some p =>
            rw [onLoadError_animations]
            exact le_trans
              (countActive_errorUpdate_le p.animationId s.animations) h2
    | toggle =>
        have hs : (step s .toggle).animations = s.animations :=
          togglePause_animations s
        rw [hs]; exact h2
    | setSpd v =>
        have hs : (step s (.setSpd v)).animations = s.animations :=
          updateSpeed_animations s v
        rw [hs]; exact h2
    | frame d =>
        have hs : (step s (.frame d)).animations = s.animations :=
          frameTick_animations s d
        rw [hs]; exact h2
    | teardown =>
        have hs : (step s .teardown).animations = s.animations :=
          cleanup_animations s
        rw [hs]; exact h2
  · intro t a ha
    rcases List.mem_map.mp ha with ⟨b, _, rfl⟩
    rfl
  · intro t a ha
    rcases List.mem_map.mp ha with ⟨b, _, rfl⟩
    rfl
  · intro t a ha hid
    rcases List.mem_map.mp ha with ⟨b, _, rfl⟩
    simp only at hid
    simp [hid]

/-- Witness for **C3** at a concrete state and event: the initial
descriptor list has distinct ids and at most one active descriptor,
and one `seated`-selection step keeps at most one descriptor
active. -/
theorem atMostOneActiveDescriptorWitness :
    distinctIds initState.animations ∧ countActive initState.animations ≤ 1 ∧
    countActive (step initState (.select "seated")).animations ≤ 1 :=
  ⟨by decide, by decide,
   (atMostOneActiveDescriptor initState (.select "seated")
     (by decide) (by decide)).1⟩

lemma onLoadError_isLoading (s : ViewerState) (p : PendingLoad) :
    (onLoadError s p).isLoading = false := rfl

lemma onLoadError_scene (s : ViewerState) (p : PendingLoad) :
    (onLoadError s p).scene = s.scene := rfl

lemma onLoadError_model (s : ViewerState) (p : PendingLoad) :
    (onLoadError s p).model = s.model := rfl

lemma select_step_fields (s : ViewerState) (id : String) (d : AnimDesc)
    (l : List Placed) (m : Placed)
    (hfind : s.animations.find? (fun a => a.id == id) = some d)
    (hact : d.active = false)
    (hscene : s.scene = some l) (hmodel : s.model = some m)
    (hmix : s.mixer = true) :
    (handleAnimationChange s id).isLoading = true ∧
    (handleAnimationChange s id).isPaused = false ∧
    (handleAnimationChange s id).animations = selectUpdate id s.animations ∧
    (handleAnimationChange s id).scene =
      some (l.filter (fun p => p.objId ≠ m.objId)) ∧
    (handleAnimationChange s id).model = none ∧
    (handleAnimationChange s id).mixer = false ∧
    (handleAnimationChange s id).currentAction = none ∧
    (handleAnimationChange s id).disposed = s.disposed ∧
    (handleAnimationChange s id).loaderFields =
      s.loaderFields ++ [(s.loaderFields.length, s.clock)] ∧
    (handleAnimationChange s id).pending =
      s.pending ++ [⟨s.loaderFields.length, s.clock, id, s.speed, s.isPaused⟩] := by
  unfold handleAnimationChange
  rw [hfind]
  dsimp only
  simp only [hact, Bool.false_eq_true, if_false]
  unfold loadAnimationModel
  dsimp only [addLog]
  rw [hscene]
  dsimp only
  rw [hmodel]
  dsimp only
  simp [hmix]

lemma onLoadSuccess_fields (s : ViewerState) (p : PendingLoad) (f : Fbx)
    (htok : lookupLoaderField s.loaderFields p.loaderIdx = some p.loadId)
    (objs : List Placed) (hscene : s.scene = some objs)
    (hn : f.numAnimations ≠ 0) :
    (onLoadSuccess s p f).scene =
      some (objs ++ [⟨s.nextObjId, f, (autoScaleAndCenter f.box).1,
        (autoScaleAndCenter f.box).2.x, (autoScaleAndCenter f.box).2.y,
        (autoScaleAndCenter f.box).2.z⟩]) ∧
    (onLoadSuccess s p f).disposed = s.disposed ∧
    (onLoadSuccess s p f).isLoading = false ∧
    (onLoadSuccess s p f).mixer = true ∧
    (onLoadSuccess s p f).currentAction =
      some ⟨p.capturedIsPaused, p.capturedSpeed, 0⟩ ∧
    (onLoadSuccess s p f).model =
      some ⟨s.nextObjId, f, (autoScaleAndCenter f.box).1,
        (autoScaleAndCenter f.box).2.x, (autoScaleAndCenter f.box).2.y,
        (autoScaleAndCenter f.box).2.z⟩ ∧
    (onLoadSuccess s p f).animations = successUpdate p.animationId s.animations := by
  unfold onLoadSuccess
  rw [if_neg (by simp [htok])]
  dsimp only [addLog]
  rw [hscene]
  dsimp only
  rw [if_pos hn]
  simp

lemma onLoadSuccess_scene_none (s : ViewerState) (p : PendingLoad) (f : Fbx)
    (h : s.scene = none) : (onLoadSuccess s p f).scene = none := by
  unfold onLoadSuccess
  split
  · exact h
  · dsimp only [addLog]
    rw [h]

lemma lookupLoaderField_append (fields : List (Nat × Nat)) (k v : Nat)
    (h : lookupLoaderField fields k = none) :
    lookupLoaderField (fields ++ [(k, v)]) k = some v := by
  unfold lookupLoaderField at h ⊢
  rw [List.find?_append]
  rcases hf : fields.find? (fun p => p.1 == k) with _ | q
  · simp [hf]
  · rw [hf] at h
    simp at h

/-- **C2 (amended).** If the selected animation's fetch fails for the
still-current request, `isLoading` is `false` afterwards and no
descriptor is left `active`; however, the previously displayed model
was already detached from the scene when the load was issued (App.js
lines 121-125 run before `loader.load`), so the scene no longer holds
it at failure time — the viewport is blanked, not preserved. -/
theorem loadFailureClearsActive (s : ViewerState) (id : String)
    (d : AnimDesc) (l : List Placed) (m : Placed)
    (hfind : s.animations.find? (fun a => a.id == id) = some d)
    (hact : d.active = false)
    (hscene : s.scene = some l) (hmodel : s.model = some m)
    (hmix : s.mixer = true) (hpending : s.pending = []) :
    (step (step s (.select id)) (.completeErr 0)).isLoading = false ∧
    countActive (step (step s (.select id)) (.completeErr 0)).animations = 0 ∧
    (step (step s (.select id)) (.completeErr 0)).scene =
      some (l.filter (fun p => p.objId ≠ m.objId)) ∧
    (step (step s (.select id)) (.completeErr 0)).model = none := by
  obtain ⟨hl, hp, hanims, hsc, hmo, hmx, hca, hdisp, hlf, hpd⟩ :=
    select_step_fields s id d l m hfind hact hscene hmodel hmix
  have hstep1 : step s (.select id) = handleAnimationChange s id := rfl
  rw [hstep1]
  have hget : (handleAnimationChange s id).pending.get? 0 =
      some ⟨s.loaderFields.length, s.clock, id, s.speed, s.isPaused⟩ := by
    rw [hpd, hpending]
    rfl
  have hstep2 : step (handleAnimationChange s id) (.completeErr 0) =
      onLoadError
        { handleAnimationChange s id with
            pending := (handleAnimationChange s id).pending.eraseIdx 0 }
        ⟨s.loaderFields.length, s.clock, id, s.speed, s.isPaused⟩ := by
    show (match (handleAnimationChange s id).pending.get? 0 with
          | some p =>
              onLoadError
                { handleAnimationChange s id with
                    pending := (handleAnimationChange s id).pending.eraseIdx 0 } p
          | none => handleAnimationChange s id) = _
    rw [hget]
  rw [hstep2]
  have heras : ({ handleAnimationChange s id with
      pending := (handleAnimationChange s id).pending.eraseIdx 0 } :
        ViewerState).animations = (handleAnimationChange s id).animations := rfl
  refine ⟨onLoadError_isLoading _ _, ?_, ?_, ?_⟩
  · rw [onLoadError_animations, heras, hanims]
    exact countActive_errorUpdate_selectUpdate id s.animations
  · rw [onLoadError_scene]
    exact hsc
  · rw [onLoadError_model]
    exact hmo

/-- **C5 (amended).** On a successful load replacing a previously
active model, the previous model is detached from the scene and its
mixer stopped when the load is issued — hence before the new asset is
attached — but its geometry and material resources are NOT disposed
during the replacement (no `dispose()` runs outside the unmount
cleanup, App.js lines 477-495): the set of disposed resources is
unchanged across the whole replacement. -/
theorem replacementDetachesWithoutDispose (s : ViewerState) (id : String)
    (d : AnimDesc) (l : List Placed) (m : Placed) (n : Nat) (b : BBox)
    (hfind : s.animations.find? (fun a => a.id == id) = some d)
    (hact : d.active = false)
    (hscene : s.scene = some l) (hmodel : s.model = some m)
    (hmix : s.mixer = true) (hpending : s.pending = [])
    (hkey : lookupLoaderField s.loaderFields s.loaderFields.length = none)
    (hn : n ≠ 0) :
    (step s (.select id)).scene =
      some (l.filter (fun p => p.objId ≠ m.objId)) ∧
    (step s (.select id)).model = none ∧
    (step s (.select id)).mixer = false ∧
    (step s (.select id)).currentAction = none ∧
    (∃ q : Placed, q.fbx.animId = id ∧
      (step (step s (.select id)) (.completeOk 0 n b)).scene =
        some (l.filter (fun p => p.objId ≠ m.objId) ++ [q])) ∧
    (step (step s (.select id)) (.completeOk 0 n b)).disposed = s.disposed := by
  obtain ⟨hl, hp, hanims, hsc, hmo, hmx, hca, hdisp, hlfs, hpd⟩ :=
    select_step_fields s id d l m hfind hact hscene hmodel hmix
  have hstep1 : step s (.select id) = handleAnimationChange s id := rfl
  rw [hstep1]
  have hget : (handleAnimationChange s id).pending.get? 0 =
      some ⟨s.loaderFields.length, s.clock, id, s.speed, s.isPaused⟩ := by
    rw [hpd, hpending]
    rfl
  have hstep2 : step (handleAnimationChange s id) (.completeOk 0 n b) =
      onLoadSuccess
        { handleAnimationChange s id with
            pending := (handleAnimationChange s id).pending.eraseIdx 0 }
        ⟨s.loaderFields.length, s.clock, id, s.speed, s.isPaused⟩
        ⟨id, n, b⟩ := by
    show (match (handleAnimationChange s id).pending.get? 0 with
          | some p =>
              onLoadSuccess
                { handleAnimationChange s id with
                    pending := (handleAnimationChange s id).pending.eraseIdx 0 } p
                ⟨p.animationId, n, b⟩
          | none => handleAnimationChange s id) = _
    rw [hget]
  rw [hstep2]
  have htok : lookupLoaderField
      ({ handleAnimationChange s id with
          pending := (handleAnimationChange s id).pending.eraseIdx 0 } :
        ViewerState).loaderFields s.loaderFields.length = some s.clock := by
    have hflds : ({ handleAnimationChange s id with
        pending := (handleAnimationChange s id).pending.eraseIdx 0 } :
          ViewerState).loaderFields =
        s.loaderFields ++ [(s.loaderFields.length, s.clock)] := hlfs
    rw [hflds]
    exact lookupLoaderField_append s.loaderFields s.loaderFields.length
      s.clock hkey
  have hsc2 : ({ handleAnimationChange s id with
      pending := (handleAnimationChange s id).pending.eraseIdx 0 } :
        ViewerState).scene =
      some (l.filter (fun p => p.objId ≠ m.objId)) := hsc
  obtain ⟨hfs, hfd, _, _, _, _, _⟩ :=
    onLoadSuccess_fields _ ⟨s.loaderFields.length, s.clock, id, s.speed, s.isPaused⟩
      ⟨id, n, b⟩ htok (l.filter (fun p => p.objId ≠ m.objId)) hsc2 hn
  refine ⟨hsc, hmo, hmx, hca,
    ⟨⟨({ handleAnimationChange s id with
        pending := (handleAnimationChange s id).pending.eraseIdx 0 } :
          ViewerState).nextObjId, ⟨id, n, b⟩, (autoScaleAndCenter b).1,
      (autoScaleAndCenter b).2.x, (autoScaleAndCenter b).2.y,
      (autoScaleAndCenter b).2.z⟩, rfl, hfs⟩, ?_⟩
  rw [hfd]
  exact hdisp

/-- **C7.** Teardown cancels the scheduled next-frame callback (so a
subsequent frame is a strict no-op on the state), nulls the scene
ref, and is total (the cleanup never throws, exceptional sub-calls
being wrapped in try/catch in the source); a load completion —
success or failure — arriving after teardown finds the scene ref null
and performs no scene mutation. -/
theorem teardownStopsFramesAndGuardsScene (s : ViewerState) (k n : Nat)
    (b : BBox) (d : Rat) :
    (step s .teardown).animationFrameId = none ∧
    (step s .teardown).scene = none ∧
    step (step s .teardown) (.frame d) = step s .teardown ∧
    (step (step s .teardown) (.completeOk k n b)).scene = none ∧
    (step (step s .teardown) (.completeErr k)).scene = none := by
  refine ⟨rfl, rfl, rfl, ?_, ?_⟩
  · show (match (cleanup s).pending.get? k with
          | some p =>
              onLoadSuccess
                { cleanup s with pending := (cleanup s).pending.eraseIdx k } p
                ⟨p.animationId, n, b⟩
          | none => cleanup s).scene = none
    cases hp : (cleanup s).pending.get? k with
    | none => rfl
    | some p => exact onLoadSuccess_scene_none _ p _ rfl
  · show (match (cleanup s).pending.get? k with
          | some p =>
              onLoadError
                { cleanup s with pending := (cleanup s).pending.eraseIdx k } p
          | none => cleanup s).scene = none
    cases hp : (cleanup s).pending.get? k with
    | none => rfl
    | some p => exact (onLoadError_scene _ p).trans rfl

/-- **C8 (amended).** `togglePause` is a strict no-op when no
mixer/clip is attached; with a mixer attached, calling it twice
restores the original `isPaused` flag and never touches the clip
time, and the clip action's `paused` property ends equal to the
restored flag — so the action's `paused` property is restored exactly
when it initially agreed with the flag (reachable states exist where
it does not, see the counterexample). -/
theorem doubleToggleRestoresPausedFlag (s : ViewerState) (a : ClipAction)
    (hm : s.mixer = true) (ha : s.currentAction = some a) :
    (togglePause (togglePause s)).isPaused = s.isPaused ∧
    (togglePause (togglePause s)).currentAction =
      some { a with paused := s.isPaused } ∧
    ((togglePause (togglePause s)).currentAction).map ClipAction.time =
      some a.time ∧
    (a.paused = s.isPaused →
      (togglePause (togglePause s)).currentAction = some a) ∧
    (∀ s2 : ViewerState, s2.mixer = false ∨ s2.currentAction = none →
      togglePause s2 = s2) := by
  refine ⟨?_, ?_, ?_, ?_, ?_⟩
  · simp [togglePause, ha, hm, addLog]
  · simp [togglePause, ha, hm, addLog]
  · simp [togglePause, ha, hm, addLog]
  · intro hpa
    have h2 : (togglePause (togglePause s)).currentAction =
        some { a with paused := s.isPaused } := by
      simp [togglePause, ha, hm, addLog]
    rw [h2, ← hpa]
  · intro s2 h2
    unfold togglePause
    cases hca : s2.currentAction with
    | none => rfl
    | some a2 =>
        rcases h2 with h2 | h2
        · simp [h2]
        · simp [hca] at h2

/-- **C9.** For every speed `v` in `(0, 2]`, `updateSpeed v` stores
`v` in the `speed` state; if a mixer with a current clip action is
attached, the action's time scale becomes `v`
(`setEffectiveTimeScale`), and the clip time is never changed — the
clip is not reset or restarted. -/
theorem setSpeedUpdatesTimeScale (s : ViewerState) (v : Rat)
    (hv1 : 0 < v) (hv2 : v ≤ 2) :
    (updateSpeed s v).speed = v ∧
    (∀ a, s.currentAction = some a → s.mixer = true →
      (updateSpeed s v).currentAction = some { a with timeScale := v }) ∧
    ((updateSpeed s v).currentAction).map ClipAction.time =
      (s.currentAction).map ClipAction.time := by
  refine ⟨?_, ?_, ?_⟩
  · unfold updateSpeed
    cases hca : s.currentAction <;> by_cases hm : s.mixer <;>
      simp [hca, hm, addLog]
  · intro a ha hm
    unfold updateSpeed
    simp [ha, hm, addLog]
  · unfold updateSpeed
    cases hca : s.currentAction <;> by_cases hm : s.mixer <;>
      simp [hca, hm, addLog]

/-- **C10.** Selecting an id that matches no descriptor only appends
the `not found` diagnostic to the log and returns: the entire
resulting state equals the input state with that single log entry
appended — no descriptor, flag, ref, or pending load changes, and no
load is issued. -/
theorem unknownIdSelectionOnlyLogs (s : ViewerState) (id : String)
    (h : ∀ a ∈ s.animations, a.id ≠ id) :
    handleAnimationChange s id = addLog s s!"Animation {id} not found" := by
  have hfind : s.animations.find? (fun a => a.id == id) = none := by
    rw [List.find?_eq_none]
    intro a ha
    simpa using h a ha
  unfold handleAnimationChange
  rw [hfind]

/-- **C6.** Normalization of a successfully loaded asset: if the
bounding box's largest dimension is zero or non-finite, the fixed
fallback uniform scale `0.1` is applied (and the computation is a
total function — no exception propagates); otherwise the asset is
scaled uniformly so the largest dimension maps to the target size
`100`, the horizontal center `(center.x, center.z)` is translated to
the origin, and the vertical minimum `boxMin.y` lands on the ground
plane `y = 0` (a point `p` of the asset ends at
`p * scale + position`). -/
theorem normalizationSpec (b : BBox) :
    ((maxDim b = 0 ∨ b.finite = false) → (autoScaleAndCenter b).1 = 1/10) ∧
    (maxDim b ≠ 0 → b.finite = true →
      (autoScaleAndCenter b).1 * maxDim b = 100 ∧
      (getCenter b).x * (autoScaleAndCenter b).1 + (autoScaleAndCenter b).2.x = 0 ∧
      (getCenter b).z * (autoScaleAndCenter b).1 + (autoScaleAndCenter b).2.z = 0 ∧
      b.boxMin.y * (autoScaleAndCenter b).1 + (autoScaleAndCenter b).2.y = 0) := by
  have hsc : (autoScaleAndCenter b).1 =
      if maxDim b = 0 ∨ b.finite = false then (1:Rat)/10 else 100 / maxDim b := rfl
  have h2x : (autoScaleAndCenter b).2.x =
      -(getCenter b).x * (autoScaleAndCenter b).1 := rfl
  have h2z : (autoScaleAndCenter b).2.z =
      -(getCenter b).z * (autoScaleAndCenter b).1 := rfl
  have h2y : (autoScaleAndCenter b).2.y =
      -(getCenter b).y * (autoScaleAndCenter b).1 +
        (getSize b).y / 2 * (autoScaleAndCenter b).1 := rfl
  constructor
  · intro h
    rw [hsc, if_pos h]
  · intro hm hf
    have hdeg : ¬(maxDim b = 0 ∨ b.finite = false) := by
      rintro (h | h)
      · exact hm h
      · rw [hf] at h; cases h
    have hscale : (autoScaleAndCenter b).1 = 100 / maxDim b := by
      rw [hsc, if_neg hdeg]
    have hne : b.isEmptyBox = false := by
      by_contra hc
      apply hm
      have hb : b.isEmptyBox = true := by
        cases hx : b.isEmptyBox
        · exact absurd hx hc
        · rfl
      simp [maxDim, getSize, hb]
    have hcy : (getCenter b).y = (b.boxMin.y + b.boxMax.y) / 2 := by
      simp [getCenter, hne]
    have hsy : (getSize b).y = b.boxMax.y - b.boxMin.y := by
      simp [getSize, hne]
    refine ⟨?_, ?_, ?_, ?_⟩
    · rw [hscale]
      field_simp
    · rw [h2x]; ring
    · rw [h2z]; ring
    · rw [h2y, hcy, hsy]; ring

/-- **C1 (code bug).** The staleness token cannot detect staleness:
each `loadAnimationModel` call creates a fresh loader whose
`loadingId` field is written once and never changed, so the check
`loader.loadingId !== loadId` at completion always compares a field
with the very value stored into it and never fires.  On the race
trace (select `seated`, then `drinking` while `seated` is in flight;
`drinking` completes, then the superseded `seated` completes) the
stale `seated` completion is fully applied: it overwrites the model
and mixer refs, attaches a second model to the scene alongside
`drinking`, and marks `seated` active — and the `Ignoring completed
load` diagnostic never appears in the log. -/
theorem staleLoadCompletionIsApplied :
    ((run (mountTimeout initState) raceTrace).model).map
        (fun p => p.fbx.animId) = some "seated" ∧
    activeIds (run (mountTimeout initState) raceTrace).animations =
      ["seated"] ∧
    ((run (mountTimeout initState) raceTrace).scene).map
        (fun l => l.map (fun p => p.fbx.animId)) =
      some ["drinking", "seated"] ∧
    "Ignoring completed load for seated - newer request in progress" ∉
      (run (mountTimeout initState) raceTrace).log := by decide

/-- **C2 counterexample.** On the failure trace the `startwalk` model
is displayed before the failing `seated` selection, but at failure
time the scene holds no model at all: `loadAnimationModel` removed
the previous model before issuing the fetch, so the claim's "the
previously displayed model is left attached to the scene" is false
(while `isLoading = false` and zero active descriptors do hold). -/
theorem loadFailureBlanksViewport :
    ((run (mountTimeout initState) [.completeOk 0 1 okBox]).scene).map
        (fun l => l.map (fun p => p.fbx.animId)) = some ["startwalk"] ∧
    (run (mountTimeout initState) failTrace).isLoading = false ∧
    countActive (run (mountTimeout initState) failTrace).animations = 0 ∧
    (run (mountTimeout initState) failTrace).scene = some [] := by decide

/-- **C4 (code bug).** Selecting `seated` while paused resets the
`isPaused` flag to `false` (the claim's first half holds), but the
success callback reads the `isPaused` snapshot captured by the render
closure that issued the load — the value from before the reset — so
the freshly loaded clip action starts with `paused = true` while the
flag says `false`: the clip does not start playing. -/
theorem selectionWhilePausedStartsPausedClip :
    (run (mountTimeout initState) pausedSelectTrace).isPaused = false ∧
    ((run (mountTimeout initState) pausedSelectTrace).currentAction).map
        ClipAction.paused = some true ∧
    activeIds (run (mountTimeout initState) pausedSelectTrace).animations =
      ["seated"] := by decide

/-- **C5 counterexample.** After the replacement trace (display
`startwalk`, then successfully load `seated`) the set of disposed
resources is empty: the previous model's geometry and materials were
never released, so the claim's "its geometry and material resources
are disposed before the new asset is attached" is false. -/
theorem replacementDoesNotDispose :
    (run (mountTimeout initState) replaceTrace).disposed = [] ∧
    ((run (mountTimeout initState) replaceTrace).scene).map
        (fun l => l.map (fun p => p.fbx.animId)) = some ["seated"] := by decide

/-- **C8 counterexample.** A reachable state (the paused-selection
trace) has the mixer attached with `action.paused = true` while
`isPaused = false`; calling `togglePause` twice from it restores the
`isPaused` flag but leaves the action's `paused` property at `false`
≠ its original `true` — the claim's "restores ... the clip action's
paused property" fails. -/
theorem doubleToggleDoesNotRestoreActionPaused :
    (run (mountTimeout initState) pausedSelectTrace).mixer = true ∧
    ((run (mountTimeout initState) pausedSelectTrace).currentAction).map
        ClipAction.paused = some true ∧
    (run (mountTimeout initState)
        (pausedSelectTrace ++ [.toggle, .toggle])).isPaused =
      (run (mountTimeout initState) pausedSelectTrace).isPaused ∧
    ((run (mountTimeout initState)
        (pausedSelectTrace ++ [.toggle, .toggle])).currentAction).map
        ClipAction.paused = some false := by decide

/-- Witness for **C2 (amended)** at a concrete state: `startwalk`
displayed, `seated` selected and failing. -/
theorem loadFailureClearsActiveWitness :
    ((run (mountTimeout initState) [.completeOk 0 1 okBox]).animations.find?
        (fun a => a.id == "seated") = some ⟨"seated", "Sitting", false, false⟩) ∧
    (step (step (run (mountTimeout initState) [.completeOk 0 1 okBox])
        (.select "seated")) (.completeErr 0)).isLoading = false ∧
    countActive (step (step (run (mountTimeout initState) [.completeOk 0 1 okBox])
        (.select "seated")) (.completeErr 0)).animations = 0 ∧
    (step (step (run (mountTimeout initState) [.completeOk 0 1 okBox])
        (.select "seated")) (.completeErr 0)).model = none := by
  obtain ⟨h1, h2, h3, h4⟩ := loadFailureClearsActive
    (run (mountTimeout initState) [.completeOk 0 1 okBox]) "seated"
    ⟨"seated", "Sitting", false, false⟩
    (((run (mountTimeout initState) [.completeOk 0 1 okBox]).scene).getD [])
    (((run (mountTimeout initState) [.completeOk 0 1 okBox]).model).getD
      ⟨0, ⟨"", 0, okBox⟩, 0, 0, 0, 0⟩)
    (by decide) (by decide) rfl rfl (by decide) (by decide)
  exact ⟨by decide, h1, h2, h4⟩

/-- Witness for **C5 (amended)** at a concrete state: `startwalk`
displayed, replaced by a successful `seated` load. -/
theorem replacementDetachesWithoutDisposeWitness :
    lookupLoaderField
      (run (mountTimeout initState) [.completeOk 0 1 okBox]).loaderFields
      (run (mountTimeout initState) [.completeOk 0 1 okBox]).loaderFields.length
      = none ∧
    (step (run (mountTimeout initState) [.completeOk 0 1 okBox])
      (.select "seated")).mixer = false ∧
    (step (run (mountTimeout initState) [.completeOk 0 1 okBox])
      (.select "seated")).model = none ∧
    (step (step (run (mountTimeout initState) [.completeOk 0 1 okBox])
        (.select "seated")) (.completeOk 0 1 okBox)).disposed =
      (run (mountTimeout initState) [.completeOk 0 1 okBox]).disposed := by
  obtain ⟨h1, h2, h3, h4, h5, h6⟩ := replacementDetachesWithoutDispose
    (run (mountTimeout initState) [.completeOk 0 1 okBox]) "seated"
    ⟨"seated", "Sitting", false, false⟩
    (((run (mountTimeout initState) [.completeOk 0 1 okBox]).scene).getD [])
    (((run (mountTimeout initState) [.completeOk 0 1 okBox]).model).getD
      ⟨0, ⟨"", 0, okBox⟩, 0, 0, 0, 0⟩)
    1 okBox
    (by decide) (by decide) rfl rfl (by decide) (by decide) (by decide)
    (by decide)
  exact ⟨by decide, h3, h2, h6⟩

/-- Witness for **C6** at concrete boxes: a non-finite box takes the
fallback scale; a finite 2×2×2 box is scaled so its largest dimension
becomes 100. -/
theorem normalizationSpecWitness :
    (maxDim nonfinBox = 0 ∨ nonfinBox.finite = false) ∧
    (autoScaleAndCenter nonfinBox).1 = 1/10 ∧
    maxDim okBox ≠ 0 ∧ okBox.finite = true ∧
    (autoScaleAndCenter okBox).1 * maxDim okBox = 100 := by
  have hmd : maxDim okBox ≠ 0 := by norm_num [maxDim, getSize, okBox]
  exact ⟨Or.inr rfl, (normalizationSpec nonfinBox).1 (Or.inr rfl), hmd, rfl,
    ((normalizationSpec okBox).2 hmd rfl).1⟩

/-- Witness for **C8 (amended)** at a concrete state with a mixer and
a playing clip action attached. -/
theorem doubleToggleRestoresPausedFlagWitness :
    (run (mountTimeout initState) [.completeOk 0 1 okBox]).mixer = true ∧
    (run (mountTimeout initState) [.completeOk 0 1 okBox]).currentAction =
      some ⟨false, 1, 0⟩ ∧
    (togglePause (togglePause
      (run (mountTimeout initState) [.completeOk 0 1 okBox]))).isPaused =
      (run (mountTimeout initState) [.completeOk 0 1 okBox]).isPaused :=
  ⟨by decide, by decide,
   (doubleToggleRestoresPausedFlag _ ⟨false, 1, 0⟩ (by decide) (by decide)).1⟩

/-- Witness for **C9** at the concrete speed `2` and a concrete state
with a live mixer. -/
theorem setSpeedUpdatesTimeScaleWitness :
    (0:Rat) < 2 ∧ (2:Rat) ≤ 2 ∧
    (updateSpeed (run (mountTimeout initState) [.completeOk 0 1 okBox])
      2).speed = 2 :=
  ⟨by decide, by decide,
   (setSpeedUpdatesTimeScale _ 2 (by decide) (by decide)).1⟩

/-- Witness for **C10** at the concrete unknown id `flying`. -/
theorem unknownIdSelectionOnlyLogsWitness :
    (∀ a ∈ initState.animations, a.id ≠ "flying") ∧
    handleAnimationChange initState "flying" =
      addLog initState "Animation flying not found" :=
  ⟨by decide,
   (unknownIdSelectionOnlyLogs initState "flying" (by decide)).trans
     (by decide)⟩
